import Mathlib

/-!
# Verification of the svd2ral conversion-and-emission pipeline

A shallow embedding of `src/lib.rs` of the svd2ral code generator.  The
generator turns a canonicalized device model (peripheral shapes, registers,
bit fields, address-bound instances) into Rust source artifacts.  The
emitters in `lib.rs` are pure text producers: every `writeln!`/`write!`
call appends lines to an output file.  We model every emitted artifact as a
`List String` of its lines, in exactly the order the Rust code produces
them, and prove the specified properties of those line lists, of the
numeric constants embedded in them, and of the single-owner take / release
/ steal / conjure protocol whose semantics the emitted module text defines.

The `types` and `convert` modules of the repository are not part of the
given sources; the few facts needed from them (the access-kind to
wrapper-type-name mapping and the width to integer-type mapping) are
modelled from the spec and marked as such.  Everything else is translated
directly from `src/lib.rs`.
-/

namespace Svd2Ral

/-! ## Data model (types consumed by `lib.rs`) -/

/-- Bit range of a field: `BitRange { offset, width }` (`u32` values in the
source; only small shift amounts ever arise, so plain `Nat` is used and
machine-width reductions are written explicitly where overflow matters). -/
structure BitRange where
  offset : Nat
  width : Nat
deriving DecidableEq

/-- `FinalFieldInfo`: name, optional description and bit range of one field. -/
structure FinalFieldInfo where
  name : String
  description : Option String
  bit_range : BitRange
deriving DecidableEq

/-- Modelled from the spec: the access kind of a register,
`access_kind ∈ \x7bReadOnly, WriteOnly, ReadWrite\x7d` (the `types` module
defining it is not among the sources). -/
inductive Access where
  | readOnly
  | writeOnly
  | readWrite
deriving DecidableEq

/-- Access properties of a register: access kind and bit width. -/
structure AccessProperties where
  access : Access
  bit_width : Nat
deriving DecidableEq

/-- Modelled from the spec: `AccessProperties::access_type_name` lives in the
missing `types` module.  The spec says ReadOnly/WriteOnly/ReadWrite each
select a distinct parametrized access-wrapper type name imported from
`ral_registers` (the RORegister/WORegister/RWRegister wrappers of that
crate). -/
def AccessProperties.access_type_name (p : AccessProperties) : String :=
  match p.access with
  | .readOnly => "RORegister"
  | .writeOnly => "WORegister"
  | .readWrite => "RWRegister"

/-- Modelled from the spec: `AccessProperties::size_type_name` lives in the
missing `types` module.  The spec maps width 8/16/32/64 to the unsigned
integer type of the same width. -/
def AccessProperties.size_type_name (p : AccessProperties) : String :=
  "u" ++ toString p.bit_width

/-- A register of a peripheral shape (`reg_info` in `lib.rs`). -/
structure FinalRegisterInfo where
  name : String
  description : Option String
  properties : AccessProperties
  fields : List FinalFieldInfo
deriving DecidableEq

/-- A deduplicated peripheral shape (`ModelPeripheral`). -/
structure ModelPeripheral where
  name : String
  module_name : String
  description : String
  registers : List FinalRegisterInfo
deriving DecidableEq

/-- One reset value entry of an instance. -/
structure ResetValue where
  register : String
  value : Nat
deriving DecidableEq

/-- A concrete address-bound peripheral instance (`ModelPeripheralInstance`). -/
structure ModelPeripheralInstance where
  name : String
  module_name : String
  description : String
  peripheral_module : String
  base_address : Nat
  reset_values : List ResetValue
deriving DecidableEq

/-- `AddressSize` of the generator configuration. -/
inductive AddressSize where
  | u32
  | u64
deriving DecidableEq

/-- `AddressSize::type_name`. -/
def AddressSize.type_name : AddressSize → String
  | .u32 => "u32"
  | .u64 => "u64"

/-- `GeneratorConfig`: address size, ignore list, and the module path of the
target interrupt-free critical-section primitive. -/
structure GeneratorConfig where
  address_size : AddressSize
  ignore : List String
  arch_crate : String
deriving DecidableEq

/-- The device model produced by `convert` and consumed by `generate`. -/
structure Device where
  peripherals : List ModelPeripheral
  instances : List ModelPeripheralInstance
deriving DecidableEq

/-! ## Text helpers of `lib.rs` -/

/-- Rust `str::lines()`: split on newline, a trailing final newline does not
produce a trailing empty line.  (The sources never contain `\r`.) -/
def rustLines (s : String) : List String :=
  let parts := s.splitOn "\n"
  if parts.getLast? = some "" then parts.dropLast else parts

/-- `build_doc_comment(prefix, doc)`: one `prefix ++ " " ++ line` output line
per input line of the documentation string. -/
def build_doc_comment (pre : String) (doc : String) : List String :=
  (rustLines doc).map fun l => pre ++ " " ++ l

/-- `build_doc_comment` applied to an optional description, the way both
emitters use it: absent description contributes no lines. -/
def optDocLines (pre : String) : Option String → List String
  | none => []
  | some d => build_doc_comment pre d

/-- `indent(s, 1)`: every line (empty lines included) is prefixed with four
spaces; the result has no trailing newline. -/
def indentLines (ls : List String) : List String :=
  ls.map fun l => "    " ++ l

/-- Appending a string to the last line of a block of lines, the effect of a
`writeln!` that continues a string not ending in a newline.  On an empty
block the appended text is the only line. -/
def appendLast (s : String) : List String → List String
  | [] => [s]
  | [a] => [a ++ s]
  | a :: rest => a :: appendLast s rest

/-- Rust `\x7b:#x\x7d` formatting of an unsigned integer: `0x` followed by
lower-case hexadecimal digits. -/
def hexLit (n : Nat) : String :=
  "0x" ++ (Nat.toDigits 16 n).asString

/-! ## Field constant emission (`FinalFieldInfo::generate_code`) -/

/-- The mask literal computed by `FinalFieldInfo::generate_code`:
`let mask = (1u64 << self.bit_range.width) - 1;`.  A `u64` shift by an
amount `≥ 64` is an arithmetic overflow in Rust (a panic under debug
assertions), modelled as `none`; for `width < 64` the shifted value
`2 ^ width` fits in a `u64` (the `% 2 ^ 64` reduction is the identity) and
the subtraction cannot underflow. -/
def maskLiteral (width : Nat) : Option Nat :=
  if width < 64 then some ((1 <<< width) % 2 ^ 64 - 1) else none

/-- The lines of the field module before the final `indent(&code, 1)`,
given the computed mask literal. -/
def fieldCoreLines (f : FinalFieldInfo) (mask : Nat) : List String :=
  optDocLines "///" f.description ++
  ["pub mod " ++ f.name ++ " \x7b",
   "    /// Offset (" ++ toString f.bit_range.offset ++ " bits)",
   "    pub const offset: u32 = " ++ toString f.bit_range.offset ++ ";",
   "",
   "    /// Mask (" ++ toString f.bit_range.width ++ " bit: " ++ hexLit mask
     ++ " << " ++ toString f.bit_range.offset ++ ")",
   "    pub const mask: u32 = " ++ hexLit mask ++ " << offset;",
   "",
   "    /// Read-only values (empty)",
   "    pub mod R \x7b\x7d",
   "    /// Write-only values (empty)",
   "    pub mod W \x7b\x7d",
   "    /// Read-write values (empty)",
   "    pub mod RW \x7b\x7d",
   "",
   "\x7d"]

/-- `FinalFieldInfo::generate_code`: the emitted field-module text (one
indentation level applied to every line), or `none` when the mask
computation overflows. -/
def FinalFieldInfo.generate_code (f : FinalFieldInfo) : Option (List String) :=
  (maskLiteral f.bit_range.width).map fun mask => indentLines (fieldCoreLines f mask)

/-! ## Peripheral shape emission (`write_peripheral`) -/

/-- Ordered insertion without duplication: one `BTreeSet::insert` of the
Rust code.  The set is represented by its strictly sorted list of
elements, which is exactly the order `BTreeSet` iteration yields. -/
def insertSorted (a : String) : List String → List String
  | [] => [a]
  | b :: t =>
    if a < b then a :: b :: t
    else if b < a then b :: insertSorted a t
    else b :: t

/-- The contents of the `access_types` `BTreeSet` after the register loop:
every register's access-wrapper type name inserted in turn. -/
def accessTypesSet (p : ModelPeripheral) : List String :=
  p.registers.foldl (fun acc r => insertSorted r.properties.access_type_name acc) []

/-- The sorted `Vec` of access-wrapper names actually imported:
`BTreeSet` iteration order followed by `Vec::sort` (modelled by a stable
merge sort, as Rust's `sort` is). -/
def importedAccessTypes (p : ModelPeripheral) : List String :=
  (accessTypesSet p).mergeSort (fun a b => decide (a ≤ b))

/-- The `use ral_registers::\x7b…\x7d;` import line of a shape artifact. -/
def importLine (p : ModelPeripheral) : String :=
  "use ral_registers::\x7b" ++ String.intercalate ", " (importedAccessTypes p) ++ "\x7d;"

/-- The register module emitted for one register: optional doc lines, the
`pub mod` header, then the field modules joined by single newlines with the
closing brace appended directly after the last field line (`writeln!` onto
a string that does not end in a newline), or alone when there are no
fields.  `none` when a field's mask computation overflows. -/
def registerModuleLines (r : FinalRegisterInfo) : Option (List String) :=
  (r.fields.mapM FinalFieldInfo.generate_code).map fun fls =>
    optDocLines "///" r.description ++
    ["pub mod " ++ r.name ++ " \x7b"] ++
    appendLast "\x7d" fls.flatten

/-- One member of the emitted `RegisterBlock` struct: optional doc lines and
the `pub name: Wrapper<uN>,` line. -/
def registerBlockEntry (r : FinalRegisterInfo) : List String :=
  optDocLines "    ///" r.description ++
  ["    pub " ++ r.name ++ ": " ++ r.properties.access_type_name ++ "<"
    ++ r.properties.size_type_name ++ ">,"]

/-- One member of the emitted `ResetValues` struct. -/
def resetValuesEntry (r : FinalRegisterInfo) : String :=
  "    pub " ++ r.name ++ ": " ++ r.properties.size_type_name ++ ","

/-- The `RegisterBlock` struct lines: members in register order, separated
by blank lines (entries end in a newline and are joined by `"\n"`). -/
def registerBlockLines (p : ModelPeripheral) : List String :=
  ["pub struct RegisterBlock \x7b"] ++
  List.intercalate [""] (p.registers.map registerBlockEntry) ++
  ["\x7d", ""]

/-- The `ResetValues` struct lines: single-line members joined by newlines
(a lone empty line when there are no registers, from `writeln!` of the
empty join). -/
def resetValuesLines (p : ModelPeripheral) : List String :=
  let entries := p.registers.map resetValuesEntry
  ["pub struct ResetValues \x7b"] ++
  (if entries.isEmpty then [""] else entries) ++
  ["\x7d"]

/-- The trailing `Instance` struct and `Deref` impl of a shape artifact;
the address field has the configured address-size type. -/
def instanceStructLines (cfg : GeneratorConfig) : List String :=
  ["",
   "pub struct Instance \x7b",
   "    pub(crate) addr: " ++ cfg.address_size.type_name ++ ",",
   "    pub(crate) _marker: PhantomData<*const RegisterBlock>,",
   "\x7d",
   "",
   "impl ::core::ops::Deref for Instance \x7b",
   "    type Target = RegisterBlock;",
   "    #[inline(always)]",
   "    fn deref(&self) -> &RegisterBlock \x7b",
   "        unsafe \x7b &*(self.addr as *const _) \x7d",
   "    \x7d",
   "\x7d"]

/-- `write_peripheral`: the full line list of one peripheral shape artifact,
or `none` when a field mask computation overflows.  Chunks appear exactly
in the order the Rust function writes them. -/
def write_peripheral (p : ModelPeripheral) (cfg : GeneratorConfig) :
    Option (List String) :=
  (p.registers.mapM registerModuleLines).map fun regMods =>
    ["#![allow(non_snake_case, non_upper_case_globals)]",
     "#![allow(non_camel_case_types)]"] ++
    build_doc_comment "//!" p.description ++ [""] ++
    [importLine p] ++
    ["use core::marker::PhantomData;", ""] ++
    (List.intercalate [""] regMods ++ [""]) ++
    registerBlockLines p ++
    resetValuesLines p ++
    instanceStructLines cfg

/-! ## Instance emission (`write_peripheral_instance`) -/

/-- The critical-section entry line emitted in the bodies of `take` and
`release`: a call to `interrupt::free` of the configured `arch_crate`. -/
def freeLine (arch : String) : String :=
  "        " ++ arch ++ "::interrupt::free(|_| unsafe \x7b"

/-- The body lines of the emitted `take()`: flag check and conditional
set inside the critical section. -/
def takeBodyLines (n arch : String) : List String :=
  [freeLine arch,
   "            if " ++ n ++ "_TAKEN \x7b",
   "                None",
   "            \x7d else \x7b",
   "                " ++ n ++ "_TAKEN = true;",
   "                Some(INSTANCE)",
   "            \x7d",
   "        \x7d)"]

/-- The body lines of the emitted `release()`: flag-and-address check inside
the critical section, clearing the flag or panicking. -/
def releaseBodyLines (n arch : String) : List String :=
  [freeLine arch,
   "            if " ++ n ++ "_TAKEN && inst.addr == INSTANCE.addr \x7b",
   "                " ++ n ++ "_TAKEN = false;",
   "            \x7d else \x7b",
   "                panic!(\"Released a peripheral which was not taken\");",
   "            \x7d",
   "        \x7d);"]

/-- The body lines of the emitted `steal()`: the flag is set with no
critical section around the store. -/
def stealBodyLines (n : String) : List String :=
  ["        " ++ n ++ "_TAKEN = true;",
   "        INSTANCE"]

/-- The body lines of the emitted `conjure()`: the instance is returned and
the flag is not touched. -/
def conjureBodyLines : List String :=
  ["        INSTANCE"]

/-- Doc comment emitted above `take()`. -/
def takeDocLines (n : String) : List String :=
  ["    /// Safe access to " ++ n,
   "    ///",
   "    /// This function returns `Some(Instance)` if this instance is not",
   "    /// currently taken, and `None` if it is. This ensures that if you",
   "    /// do get `Some(Instance)`, you are ensured unique access to",
   "    /// the peripheral and there cannot be data races (unless other",
   "    /// code uses `unsafe`, of course). You can then pass the",
   "    /// `Instance` around to other functions as required. When you\x27re",
   "    /// done with it, you can call `release(instance)` to return it.",
   "    ///",
   "    /// `Instance` itself dereferences to a `RegisterBlock`, which",
   "    /// provides access to the peripheral\x27s registers."]

/-- Doc comment emitted above `release()`. -/
def releaseDocLines (n : String) : List String :=
  ["    /// Release exclusive access to " ++ n,
   "    ///",
   "    /// This function allows you to return an `Instance` so that it",
   "    /// is available to `take()` again. This function will panic if",
   "    /// you return a different `Instance` or if this instance is not",
   "    /// already taken."]

/-- Doc comment emitted above `steal()`. -/
def stealDocLines (n : String) : List String :=
  ["    /// Unsafely steal " ++ n,
   "    ///",
   "    /// This function is similar to take() but forcibly takes the",
   "    /// Instance, marking it as taken irregardless of its previous",
   "    /// state."]

/-- Doc comment emitted above `conjure()`. -/
def conjureDocLines (n : String) : List String :=
  ["    /// Unsafely obtains an instance of " ++ n,
   "    ///",
   "    /// This will not check if `take()` or `steal()` have already been called",
   "    /// before. It is the caller\x27s responsibility to use the returned instance",
   "    /// in a safe way that does not conflict with other instances."]

/-- Doc comment emitted above the raw register-block pointer constant. -/
def rawPointerDocLines (n : String) : List String :=
  ["/// Raw pointer to " ++ n,
   "///",
   "/// Dereferencing this is unsafe because you are not ensured unique",
   "/// access to the peripheral, so you may encounter data races with",
   "/// other users of this peripheral. It is up to you to ensure you",
   "/// will not cause data races.",
   "///",
   "/// This constant is provided for ease of use in unsafe code: you can",
   "/// simply call for example `write_reg!(gpio, GPIOA, ODR, 1);`."]

/-- The reset-value table lines of an instance, one line per entry of
`instance.reset_values`, in order. -/
def instanceResetLines (inst : ModelPeripheralInstance) : List String :=
  inst.reset_values.map fun v => "        " ++ v.register ++ ": " ++ hexLit v.value ++ ","

/-- The opening of the instance access module, up to and including the
`pub const reset` header whose member lines follow. -/
def accessModHeadLines (inst : ModelPeripheralInstance) : List String :=
  ["",
   "/// Access functions for the " ++ inst.name ++ " peripheral instance",
   "pub mod " ++ inst.name ++ " \x7b",
   "    use super::ResetValues;",
   "    use super::Instance;",
   "",
   "    const INSTANCE: Instance = Instance \x7b",
   "        addr: " ++ hexLit inst.base_address ++ ",",
   "        _marker: ::core::marker::PhantomData,",
   "    \x7d;",
   "",
   "    /// Reset values for each field in " ++ inst.name,
   "    pub const reset: ResetValues = ResetValues \x7b"]

/-- The instance access module after the reset-value member lines: the
hidden `\x7bname\x7d_TAKEN` flag and the four protocol functions. -/
def accessModTailLines (inst : ModelPeripheralInstance) (cfg : GeneratorConfig) :
    List String :=
  ["    \x7d;",
   "",
   "    #[allow(renamed_and_removed_lints)]",
   "    #[allow(private_no_mangle_statics)]",
   "    #[no_mangle]",
   "    static mut " ++ inst.name ++ "_TAKEN: bool = false;",
   ""] ++
  takeDocLines inst.name ++
  ["    #[inline]",
   "    pub fn take() -> Option<Instance> \x7b"] ++
  takeBodyLines inst.name cfg.arch_crate ++
  ["    \x7d",
   ""] ++
  releaseDocLines inst.name ++
  ["    #[inline]",
   "    pub fn release(inst: Instance) \x7b"] ++
  releaseBodyLines inst.name cfg.arch_crate ++
  ["    \x7d",
   ""] ++
  stealDocLines inst.name ++
  ["    #[allow(clippy::missing_safety_doc)]",
   "    #[inline]",
   "    pub unsafe fn steal() -> Instance \x7b"] ++
  stealBodyLines inst.name ++
  ["    \x7d",
   ""] ++
  conjureDocLines inst.name ++
  ["    #[allow(clippy::missing_safety_doc)]",
   "    #[inline]",
   "    pub unsafe fn conjure() -> Instance \x7b"] ++
  conjureBodyLines ++
  ["    \x7d",
   "\x7d",
   ""]

/-- The `pub mod \x7bname\x7d` access-functions module of one instance:
`INSTANCE` bound to the base address, the `reset` table (a lone empty line
when there are no reset values, from the `write!` of the empty join), the
hidden ownership flag, and the four protocol functions. -/
def accessModLines (inst : ModelPeripheralInstance) (cfg : GeneratorConfig) :
    List String :=
  accessModHeadLines inst ++
  (if (instanceResetLines inst).isEmpty then [""] else instanceResetLines inst) ++
  accessModTailLines inst cfg

/-- `write_peripheral_instance`: the full line list of one instance
artifact, in the order the Rust function writes it: lint allows, module doc,
re-exports of the shape's types (the register-name re-export only when the
instance has reset values), the access-functions module, and the raw
pointer constant. -/
def write_peripheral_instance (inst : ModelPeripheralInstance)
    (cfg : GeneratorConfig) : List String :=
  let register_types := inst.reset_values.map (·.register)
  ["#![allow(non_snake_case, non_upper_case_globals)]",
   "#![allow(non_camel_case_types)]"] ++
  build_doc_comment "//!" inst.description ++ [""] ++
  ["pub use super::super::peripherals::" ++ inst.peripheral_module ++ "::Instance;",
   "pub use super::super::peripherals::" ++ inst.peripheral_module
     ++ "::\x7bRegisterBlock, ResetValues\x7d;"] ++
  (if register_types.isEmpty then []
   else ["pub use super::super::peripherals::" ++ inst.peripheral_module
     ++ "::\x7b" ++ String.intercalate ", " register_types ++ "\x7d;"]) ++
  [""] ++
  accessModLines inst cfg ++
  rawPointerDocLines inst.name ++
  ["pub const " ++ inst.name ++ ": *const RegisterBlock = "
    ++ hexLit inst.base_address ++ " as *const _;"]

/-! ## Semantics of the emitted single-owner protocol

The emitted access module of every instance defines, in its text, four
operations over a hidden boolean ownership flag.  The following functions
are the state-passing shallow embedding of those emitted bodies (the
template in `write_peripheral_instance`): each takes the instance's base
address and the current flag value and returns the result together with
the new flag value; the fatal `panic!` branch of `release` is an
`Except.error` carrying the emitted panic message, with the flag left as it
was (the clearing store is never executed on that path). -/

/-- The emitted `Instance` handle value: it carries only the address
(`addr`) the instance module binds it to. -/
structure Handle where
  addr : Nat
deriving DecidableEq

namespace Generated

/-- Semantics of the emitted `take()` body. -/
def take (base : Nat) (taken : Bool) : Option Handle × Bool :=
  if taken then (none, taken) else (some ⟨base⟩, true)

/-- Semantics of the emitted `release()` body. -/
def release (base : Nat) (inst : Handle) (taken : Bool) :
    Except String Unit × Bool :=
  if taken && inst.addr == base then (Except.ok (), false)
  else (Except.error "Released a peripheral which was not taken", taken)

/-- Semantics of the emitted `steal()` body: the prior flag value is
never read. -/
def steal (base : Nat) (_taken : Bool) : Handle × Bool :=
  (⟨base⟩, true)

/-- Semantics of the emitted `conjure()` body. -/
def conjure (base : Nat) (taken : Bool) : Handle × Bool :=
  (⟨base⟩, taken)

end Generated

/-! ## The `generate` driver (post-parse part) -/

/-- Everything `generate` writes after parsing: the per-file line lists and
the three metadata name lists.  Filesystem handling is out of scope. -/
structure GenerateOutput where
  mod_rs : List String
  peripherals_mod_rs : List String
  instances_mod_rs : List String
  peripheral_files : List (String × Option (List String))
  instance_files : List (String × List String)
  peripheral_modules : List String
  instance_modules : List String
  instance_names : List String
  metadata_rs : List String
deriving DecidableEq

/-- The peripherals surviving the ignore check
(`config.ignore.iter().any(|v| v == &peripheral.name)` skips the body). -/
def keptPeripherals (d : Device) (cfg : GeneratorConfig) : List ModelPeripheral :=
  d.peripherals.filter fun p => !(cfg.ignore.contains p.name)

/-- The instances surviving the ignore check. -/
def keptInstances (d : Device) (cfg : GeneratorConfig) : List ModelPeripheralInstance :=
  d.instances.filter fun i => !(cfg.ignore.contains i.name)

/-- The fixed header `generate` writes to `mod.rs` before the loops. -/
def modRsHeader : List String :=
  ["",
   "/// Peripherals shared by multiple devices",
   "pub mod peripherals;",
   "",
   "/// Peripheral instances shared by multiple devices",
   "pub(crate) mod instances;",
   "",
   "/// Metadata",
   "pub mod metadata;",
   ""]

/-- The `metadata.rs` lines: the three name lists in emission order. -/
def metadataLines (pm im inn : List String) : List String :=
  ["pub const PERIPHERAL_MODULES: &[&str] = &["] ++
  pm.map (fun n => "    \"" ++ n ++ "\",") ++
  ["];", ""] ++
  ["pub const INSTANCE_MODULES: &[&str] = &["] ++
  im.map (fun n => "    \"" ++ n ++ "\",") ++
  ["];", ""] ++
  ["pub const INSTANCE_NAMES: &[&str] = &["] ++
  inn.map (fun n => "    \"" ++ n ++ "\",") ++
  ["];"]

/-- The post-parse part of `generate`: each loop body that is not skipped by
the ignore check writes one `pub mod` line, one artifact file, and records
the module / original names; a loop with `continue` over independent
outputs is a filter followed by maps.  The metadata lists are written after
both loops from the recorded names. -/
def generate (d : Device) (cfg : GeneratorConfig) : GenerateOutput :=
  let kp := keptPeripherals d cfg
  let ki := keptInstances d cfg
  { mod_rs := modRsHeader ++
      ki.map (fun i => "pub use self::instances::" ++ i.module_name ++ ";")
    peripherals_mod_rs := kp.map fun p => "pub mod " ++ p.module_name ++ ";"
    instances_mod_rs := ki.map fun i => "pub mod " ++ i.module_name ++ ";"
    peripheral_files := kp.map fun p => (p.module_name ++ ".rs", write_peripheral p cfg)
    instance_files := ki.map fun i => (i.module_name ++ ".rs", write_peripheral_instance i cfg)
    peripheral_modules := kp.map (·.module_name)
    instance_modules := ki.map (·.module_name)
    instance_names := ki.map (·.name)
    metadata_rs := metadataLines (kp.map (·.module_name)) (ki.map (·.module_name))
      (ki.map (·.name)) }

/-! ## Concrete witness inputs

The end-to-end example of the spec (§8): GPIOA / GPIOB, one 32-bit
read-write register ODR with one field PIN0 at offset 0, width 1. -/

/-- The PIN0 field of the spec's example. -/
def egField : FinalFieldInfo :=
  { name := "PIN0", description := none, bit_range := { offset := 0, width := 1 } }

/-- The ODR register of the spec's example. -/
def egRegister : FinalRegisterInfo :=
  { name := "ODR", description := some "Output data register",
    properties := { access := .readWrite, bit_width := 32 },
    fields := [egField] }

/-- The deduplicated GPIO shape of the spec's example. -/
def egShape : ModelPeripheral :=
  { name := "GPIOA", module_name := "gpioa", description := "General purpose I/O",
    registers := [egRegister] }

/-- The GPIOA instance of the spec's example. -/
def egInstance : ModelPeripheralInstance :=
  { name := "GPIOA", module_name := "gpioa", description := "GPIO port A",
    peripheral_module := "gpioa", base_address := 0x40010800,
    reset_values := [{ register := "ODR", value := 0 }] }

/-- A second shape, used to exercise the ignore list. -/
def egShapeTim : ModelPeripheral :=
  { name := "TIM1", module_name := "tim1", description := "Timer 1",
    registers := [egRegister] }

/-- A second instance, used to exercise the ignore list. -/
def egInstanceTim : ModelPeripheralInstance :=
  { name := "TIM1", module_name := "tim1", description := "Timer 1",
    peripheral_module := "tim1", base_address := 0x40012c00,
    reset_values := [{ register := "ODR", value := 0 }] }

/-- A device holding both example shapes and instances. -/
def egDevice : Device :=
  { peripherals := [egShape, egShapeTim], instances := [egInstance, egInstanceTim] }

/-- The default generator configuration of `lib.rs`. -/
def egConfig : GeneratorConfig :=
  { address_size := .u32, ignore := [], arch_crate := "crate::arch" }

/-- The example configuration with TIM1 ignored. -/
def egConfigIgnore : GeneratorConfig :=
  { address_size := .u32, ignore := ["TIM1"], arch_crate := "crate::arch" }

/-! ## Helper lemmas -/

/-- Two strings whose underlying character lists end differently are
different. -/
theorem string_ne_of_getLast_ne {a b : String}
    (h : a.data.getLast? ≠ b.data.getLast?) : a ≠ b :=
  fun e => h (e ▸ rfl)

/-- The last character of an appended string with a nonempty right part. -/
theorem data_getLast_append {s t : String} (h : t.data ≠ []) :
    (s ++ t).data.getLast? = t.data.getLast? := by
  rw [String.data_append, List.getLast?_append]
  obtain ⟨x, hx⟩ := Option.isSome_iff_exists.mp (List.getLast?_isSome.mpr h)
  rw [hx]
  rfl

/-- Two strings whose underlying character lists differ at an index are
different. -/
theorem string_ne_of_get_ne {a b : String} (k : Nat)
    (h : a.data[k]? ≠ b.data[k]?) : a ≠ b :=
  fun e => h (e ▸ rfl)

/-- Indexing an appended string inside its left part. -/
theorem data_get_append_left {s t : String} {k : Nat} (h : k < s.data.length) :
    (s ++ t).data[k]? = s.data[k]? := by
  rw [String.data_append, List.getElem?_append_left h]

/-! ## C1, C2, C4: the emitted single-owner protocol -/

/-- C1: in the emitted single-owner protocol, `take()` checks the flag
inside the configured interrupt-free critical section (the
`interrupt::free` call line opens its emitted body); with the flag set it
returns nothing and leaves the flag set, otherwise it sets the flag and
returns the handle bound to the instance's base address; and after a
successful `take()` a second `take()` without an intervening `release()`
returns nothing. -/
theorem svd2ral_C1_take (base : Nat) (n arch : String) :
    Generated.take base true = (none, true) ∧
    Generated.take base false = (some ⟨base⟩, true) ∧
    (∀ h t, Generated.take base false = (some h, t) →
      h.addr = base ∧ Generated.take base t = (none, t)) ∧
    freeLine arch ∈ takeBodyLines n arch ∧
    (takeBodyLines n arch).head? = some (freeLine arch) := by
  refine ⟨rfl, rfl, ?_, ?_, rfl⟩
  · intro h t he
    simp only [Generated.take, if_neg Bool.false_ne_true, Prod.mk.injEq,
      Option.some.injEq] at he
    obtain ⟨h1, h2⟩ := he
    subst h1; subst h2
    exact ⟨rfl, rfl⟩
  · simp [takeBodyLines]

/-- Witness for C1: the flag transition of the spec's GPIOA example at
address `0x40010800`, with the hypothesis of a successful first `take()`
discharged concretely. -/
theorem svd2ral_C1_take_witness :
    Handle.addr ⟨0x40010800⟩ = 0x40010800 ∧
    Generated.take 0x40010800 true = (none, true) :=
  (svd2ral_C1_take 0x40010800 "GPIOA" "crate::arch").2.2.1 ⟨0x40010800⟩ true rfl

/-- C2: the emitted `release(handle)` runs inside the critical section (the
`interrupt::free` call line opens its emitted body) and clears the flag
exactly when the flag is set and the handle's address equals the
instance's; in every other case it aborts with the emitted panic message,
never silently succeeding, and the flag is left unchanged. -/
theorem svd2ral_C2_release (base : Nat) (h : Handle) (taken : Bool) (n arch : String) :
    (Generated.release base h taken = (Except.ok (), false) ↔
      taken = true ∧ h.addr = base) ∧
    (¬(taken = true ∧ h.addr = base) →
      Generated.release base h taken =
        (Except.error "Released a peripheral which was not taken", taken)) ∧
    freeLine arch ∈ releaseBodyLines n arch ∧
    (releaseBodyLines n arch).head? = some (freeLine arch) := by
  refine ⟨?_, ?_, ?_, rfl⟩
  · constructor
    · intro he
      by_cases hc : (taken && h.addr == base) = true
      · simp only [Bool.and_eq_true, beq_iff_eq] at hc
        exact ⟨hc.1, hc.2⟩
      · simp only [Generated.release, if_neg hc, Prod.mk.injEq] at he
        exact absurd he.1 (by simp)
    · rintro ⟨ht, ha⟩
      simp [Generated.release, ht, ha]
  · intro hc
    have : (taken && h.addr == base) = false := by
      rcases Bool.eq_false_or_eq_true taken with ht | ht
      · simp only [ht, Bool.true_and, beq_eq_false_iff_ne, ne_eq]
        exact fun ha => hc ⟨ht, ha⟩
      · simp [ht]
    simp [Generated.release, this]
  · simp [releaseBodyLines]

/-- Witness for C2: releasing a handle of the GPIOB address against the
GPIOA instance aborts with the emitted message and leaves the flag set. -/
theorem svd2ral_C2_release_witness :
    Generated.release 0x40010800 ⟨0x40010c00⟩ true =
      (Except.error "Released a peripheral which was not taken", true) :=
  (svd2ral_C2_release 0x40010800 ⟨0x40010c00⟩ true "GPIOA" "crate::arch").2.1
    (by decide)

/-- C4: the emitted `steal()` always succeeds: whatever the prior flag
value, it returns the handle bound to the base address and leaves the flag
set; the emitted `conjure()` returns the same handle and the flag after it
equals the flag before. -/
theorem svd2ral_C4_steal_conjure (base : Nat) (taken : Bool) :
    Generated.steal base taken = (⟨base⟩, true) ∧
    (Generated.steal base taken).2 = true ∧
    Generated.conjure base taken = (⟨base⟩, taken) ∧
    (Generated.conjure base taken).2 = taken :=
  ⟨rfl, rfl, rfl, rfl⟩

/-! ## C5: deterministic emission -/

/-- Two runs of the whole post-parse generation pipeline on the same input
and configuration. -/
def generateTwice (d : Device) (cfg : GeneratorConfig) :
    GenerateOutput × GenerateOutput :=
  (generate d cfg, generate d cfg)

/-- Two runs of each single-artifact emitter on the same input. -/
def emitArtifactsTwice (p : ModelPeripheral) (i : ModelPeripheralInstance)
    (cfg : GeneratorConfig) :
    (Option (List String) × List String) × (Option (List String) × List String) :=
  ((write_peripheral p cfg, write_peripheral_instance i cfg),
   (write_peripheral p cfg, write_peripheral_instance i cfg))

/-- C5: emission is deterministic: for a fixed device model and
configuration, running the emitters twice produces identical artifacts —
the output is a pure function of the input model and config.  (The
embedding is exact on this point: the Rust emitters consume only their
arguments, and their only non-`Vec` collection is a `BTreeSet`, whose
iteration order is the sorted order modelled here.) -/
theorem svd2ral_C5_deterministic (d : Device) (p : ModelPeripheral)
    (i : ModelPeripheralInstance) (cfg : GeneratorConfig) :
    (generateTwice d cfg).1 = (generateTwice d cfg).2 ∧
    (emitArtifactsTwice p i cfg).1 = (emitArtifactsTwice p i cfg).2 :=
  ⟨rfl, rfl⟩

/-! ## C3, C9: the emitted field constants -/

/-- Re-anchoring an indentation prefix inside a two-fold append. -/
theorem indent_line {A B x y : String} (hAB : "    " ++ A = B) :
    "    " ++ (A ++ x ++ y) = B ++ x ++ y := by
  simp only [← String.append_assoc, hAB]

/-- Indenting a line keeps it a member of the indented block. -/
theorem mem_indentLines {l : List String} {a : String} (ha : a ∈ l) :
    ("    " ++ a) ∈ indentLines l :=
  List.mem_map_of_mem _ ha

/-- Counterexample to C3 as stated: for a field of width 64, the
generator's `u64` mask computation `(1u64 << width) - 1` overflows the
shift (a panic under debug assertions), so no mask constant is emitted at
all — width 64 is not overflow-free. -/
theorem svd2ral_C3_counterexample :
    maskLiteral 64 = none ∧
    FinalFieldInfo.generate_code ⟨"PIN0", none, ⟨0, 64⟩⟩ = none :=
  ⟨rfl, rfl⟩

/-- C3 (amended): for every field of width &lt; 64 — in particular width 32,
which plain 32-bit arithmetic could not handle — the mask literal is
computed in unsigned 64-bit arithmetic without overflow and equals
`(1 << width) - 1`, the emitted `mask` constant line carries exactly that
literal shifted by the `offset` constant, and the value of the emitted
expression equals `((1 << width) - 1) << offset` exactly; at width 64 the
`u64` shift itself overflows and nothing is emitted. -/
theorem svd2ral_C3_mask (f : FinalFieldInfo) (hw : f.bit_range.width < 64) :
    maskLiteral f.bit_range.width = some (2 ^ f.bit_range.width - 1) ∧
    (∃ out, FinalFieldInfo.generate_code f = some out ∧
      ("        pub const mask: u32 = " ++ hexLit (2 ^ f.bit_range.width - 1)
        ++ " << offset;") ∈ out) ∧
    (2 ^ f.bit_range.width - 1) * 2 ^ f.bit_range.offset
      = ((1 <<< f.bit_range.width) - 1) <<< f.bit_range.offset := by
  have hm : maskLiteral f.bit_range.width = some (2 ^ f.bit_range.width - 1) := by
    have hlt : 2 ^ f.bit_range.width < 18446744073709551616 := by
      calc 2 ^ f.bit_range.width < 2 ^ 64 := Nat.pow_lt_pow_right (by norm_num) hw
        _ = 18446744073709551616 := by norm_num
    simp [maskLiteral, hw, Nat.shiftLeft_eq, Nat.mod_eq_of_lt hlt]
  refine ⟨hm, ?_, ?_⟩
  · refine ⟨indentLines (fieldCoreLines f (2 ^ f.bit_range.width - 1)), ?_, ?_⟩
    · simp [FinalFieldInfo.generate_code, hm]
    · rw [show ("        pub const mask: u32 = "
          ++ hexLit (2 ^ f.bit_range.width - 1) ++ " << offset;")
          = "    " ++ ("    pub const mask: u32 = "
          ++ hexLit (2 ^ f.bit_range.width - 1) ++ " << offset;") from
          (indent_line rfl).symm]
      exact mem_indentLines (by simp [fieldCoreLines])
  · rw [Nat.shiftLeft_eq, Nat.one_shiftLeft]

/-- Witness for C3 (amended), at the width-32 boundary the claim calls
out: the mask literal is `0xffffffff` and the emitted expression value is
`(2 ^ 32 - 1) << 0`. -/
theorem svd2ral_C3_mask_witness :
    maskLiteral 32 = some (2 ^ 32 - 1) ∧
    (∃ out, FinalFieldInfo.generate_code ⟨"PIN0", none, ⟨0, 32⟩⟩ = some out ∧
      ("        pub const mask: u32 = " ++ hexLit (2 ^ 32 - 1)
        ++ " << offset;") ∈ out) ∧
    (2 ^ 32 - 1) * 2 ^ 0 = ((1 <<< 32) - 1) <<< 0 :=
  svd2ral_C3_mask ⟨"PIN0", none, ⟨0, 32⟩⟩ (by decide)

/-- C9: the per-field `offset` and `mask` constants are emitted with Rust
type `u32` whatever the owning register's width and the configured address
size: `FinalFieldInfo::generate_code` consumes neither the register's
`bit_width` nor the `GeneratorConfig`, and both emitted constant lines name
the type `u32`. -/
theorem svd2ral_C9_const_types (f : FinalFieldInfo) (out : List String)
    (h : FinalFieldInfo.generate_code f = some out) :
    ("        pub const offset: u32 = " ++ toString f.bit_range.offset ++ ";")
      ∈ out ∧
    ∃ mask, maskLiteral f.bit_range.width = some mask ∧
      ("        pub const mask: u32 = " ++ hexLit mask ++ " << offset;") ∈ out := by
  obtain ⟨m, hm, hout⟩ := Option.map_eq_some'.mp h
  subst hout
  constructor
  · rw [show ("        pub const offset: u32 = "
        ++ toString f.bit_range.offset ++ ";")
        = "    " ++ ("    pub const offset: u32 = "
        ++ toString f.bit_range.offset ++ ";") from (indent_line rfl).symm]
    exact mem_indentLines (by simp [fieldCoreLines])
  · refine ⟨m, hm, ?_⟩
    rw [show ("        pub const mask: u32 = " ++ hexLit m ++ " << offset;")
        = "    " ++ ("    pub const mask: u32 = " ++ hexLit m
        ++ " << offset;") from (indent_line rfl).symm]
    exact mem_indentLines (by simp [fieldCoreLines])

/-- Witness for C9: the PIN0 field of the spec's example, whose emitted
constants are `offset: u32 = 0` and `mask: u32 = 0x1 << offset`. -/
theorem svd2ral_C9_const_types_witness :
    ("        pub const offset: u32 = " ++ toString (0 : Nat) ++ ";")
      ∈ indentLines (fieldCoreLines egField 1) ∧
    ∃ mask, maskLiteral 1 = some mask ∧
      ("        pub const mask: u32 = " ++ hexLit mask ++ " << offset;")
        ∈ indentLines (fieldCoreLines egField 1) :=
  svd2ral_C9_const_types egField (indentLines (fieldCoreLines egField 1)) rfl

/-! ## C10: which emitted bodies invoke the critical-section primitive -/

/-- C10: in the emitted text of every instance, the bodies of `take()` and
`release()` open with the configured `arch_crate` path's
`interrupt::free` critical-section call, while the emitted `steal()` body
sets the ownership flag without that call and the `conjure()` body
contains it neither; and the four bodies occur verbatim, in order, in the
artifact `write_peripheral_instance` emits. -/
theorem svd2ral_C10_critical_sections (inst : ModelPeripheralInstance)
    (cfg : GeneratorConfig) :
    freeLine cfg.arch_crate ∈ takeBodyLines inst.name cfg.arch_crate ∧
    freeLine cfg.arch_crate ∈ releaseBodyLines inst.name cfg.arch_crate ∧
    freeLine cfg.arch_crate ∉ stealBodyLines inst.name ∧
    freeLine cfg.arch_crate ∉ conjureBodyLines ∧
    ("        " ++ inst.name ++ "_TAKEN = true;") ∈ stealBodyLines inst.name ∧
    ∃ pre mid₁ mid₂ mid₃ post,
      write_peripheral_instance inst cfg =
        pre ++ takeBodyLines inst.name cfg.arch_crate ++ mid₁ ++
        releaseBodyLines inst.name cfg.arch_crate ++ mid₂ ++
        stealBodyLines inst.name ++ mid₃ ++ conjureBodyLines ++ post := by
  have hfree : (freeLine cfg.arch_crate).data.getLast? = some (Char.ofNat 123) := by
    have : ("::interrupt::free(|_| unsafe \x7b" : String).data ≠ [] := by decide
    rw [freeLine, data_getLast_append this]
    decide
  refine ⟨by simp [takeBodyLines], by simp [releaseBodyLines], ?_, ?_, ?_, ?_⟩
  · intro hmem
    rcases (by simpa [stealBodyLines] using hmem :
        freeLine cfg.arch_crate = "        " ++ inst.name ++ "_TAKEN = true;" ∨
        freeLine cfg.arch_crate = "        INSTANCE") with he | he
    · refine string_ne_of_getLast_ne ?_ he
      rw [hfree, data_getLast_append (t := "_TAKEN = true;") (by decide)]
      decide
    · refine string_ne_of_getLast_ne ?_ he
      rw [hfree]
      decide
  · intro hmem
    have he : freeLine cfg.arch_crate = "        INSTANCE" := by
      simpa [conjureBodyLines] using hmem
    refine string_ne_of_getLast_ne ?_ he
    rw [hfree]
    decide
  · simp [stealBodyLines]
  · refine ⟨["#![allow(non_snake_case, non_upper_case_globals)]",
      "#![allow(non_camel_case_types)]"] ++
      build_doc_comment "//!" inst.description ++ [""] ++
      ["pub use super::super::peripherals::" ++ inst.peripheral_module
        ++ "::Instance;",
       "pub use super::super::peripherals::" ++ inst.peripheral_module
        ++ "::\x7bRegisterBlock, ResetValues\x7d;"] ++
      (if (inst.reset_values.map (·.register)).isEmpty then []
       else ["pub use super::super::peripherals::" ++ inst.peripheral_module
        ++ "::\x7b" ++ String.intercalate ", " (inst.reset_values.map (·.register))
        ++ "\x7d;"]) ++
      [""] ++
      (["",
        "/// Access functions for the " ++ inst.name ++ " peripheral instance",
        "pub mod " ++ inst.name ++ " \x7b",
        "    use super::ResetValues;",
        "    use super::Instance;",
        "",
        "    const INSTANCE: Instance = Instance \x7b",
        "        addr: " ++ hexLit inst.base_address ++ ",",
        "        _marker: ::core::marker::PhantomData,",
        "    \x7d;",
        "",
        "    /// Reset values for each field in " ++ inst.name,
        "    pub const reset: ResetValues = ResetValues \x7b"] ++
       (if (instanceResetLines inst).isEmpty then [""] else instanceResetLines inst) ++
       ["    \x7d;",
        "",
        "    #[allow(renamed_and_removed_lints)]",
        "    #[allow(private_no_mangle_statics)]",
        "    #[no_mangle]",
        "    static mut " ++ inst.name ++ "_TAKEN: bool = false;",
        ""] ++
       takeDocLines inst.name ++
       ["    #[inline]",
        "    pub fn take() -> Option<Instance> \x7b"]),
      ["    \x7d", ""] ++ releaseDocLines inst.name ++
        ["    #[inline]", "    pub fn release(inst: Instance) \x7b"],
      ["    \x7d", ""] ++ stealDocLines inst.name ++
        ["    #[allow(clippy::missing_safety_doc)]", "    #[inline]",
         "    pub unsafe fn steal() -> Instance \x7b"],
      ["    \x7d", ""] ++ conjureDocLines inst.name ++
        ["    #[allow(clippy::missing_safety_doc)]", "    #[inline]",
         "    pub unsafe fn conjure() -> Instance \x7b"],
      ["    \x7d", "\x7d", ""] ++ rawPointerDocLines inst.name ++
        ["pub const " ++ inst.name ++ ": *const RegisterBlock = "
          ++ hexLit inst.base_address ++ " as *const _;"], ?_⟩
    simp [write_peripheral_instance, accessModLines, accessModHeadLines,
      accessModTailLines, List.append_assoc]

/-- Witness for C10: the `crate::arch::interrupt::free` line opens the
emitted `take()` body of the spec's GPIOA example. -/
theorem svd2ral_C10_critical_sections_witness :
    freeLine "crate::arch" ∈ takeBodyLines "GPIOA" "crate::arch" :=
  (svd2ral_C10_critical_sections egInstance egConfig).1

/-! ## C7: the import line carries exactly the used wrapper types -/

/-- Membership in an ordered insertion: the inserted element and the old
elements, nothing else. -/
theorem mem_insertSorted (x a : String) (l : List String) :
    x ∈ insertSorted a l ↔ x = a ∨ x ∈ l := by
  induction l with
  | nil => simp [insertSorted]
  | cons b t ih =>
    by_cases h1 : a < b
    · simp [insertSorted, h1, List.mem_cons]
    · by_cases h2 : b < a
      · simp only [insertSorted, if_neg h1, if_pos h2, List.mem_cons, ih]
        tauto
      · have hab : a = b := le_antisymm (not_lt.mp h2) (not_lt.mp h1)
        subst hab
        simp [insertSorted, h1, List.mem_cons]

/-- Ordered insertion preserves strict sortedness (the `BTreeSet`
invariant). -/
theorem sorted_insertSorted (a : String) (l : List String)
    (h : l.Sorted (· < ·)) : (insertSorted a l).Sorted (· < ·) := by
  induction l with
  | nil => simp [insertSorted]
  | cons b t ih =>
    rw [List.sorted_cons] at h
    obtain ⟨hb, ht⟩ := h
    by_cases h1 : a < b
    · rw [insertSorted, if_pos h1, List.sorted_cons]
      refine ⟨?_, List.sorted_cons.mpr ⟨hb, ht⟩⟩
      intro c hc
      rcases List.mem_cons.mp hc with hc | hc
      · exact hc ▸ h1
      · exact lt_trans h1 (hb c hc)
    · by_cases h2 : b < a
      · rw [insertSorted, if_neg h1, if_pos h2, List.sorted_cons]
        refine ⟨?_, ih ht⟩
        intro c hc
        rcases (mem_insertSorted c a t).mp hc with hc | hc
        · exact hc ▸ h2
        · exact hb c hc
      · have hab : a = b := le_antisymm (not_lt.mp h2) (not_lt.mp h1)
        subst hab
        rw [insertSorted, if_neg h1, if_neg h2]
        exact List.sorted_cons.mpr ⟨hb, ht⟩

/-- Membership in the register loop's `BTreeSet` fold: exactly the initial
elements and the access-type names of the processed registers. -/
theorem mem_foldl_insertSorted (x : String) (rs : List FinalRegisterInfo) :
    ∀ init : List String,
      x ∈ rs.foldl (fun acc r => insertSorted r.properties.access_type_name acc) init
        ↔ x ∈ init ∨ ∃ r ∈ rs, r.properties.access_type_name = x := by
  induction rs with
  | nil => intro init; simp
  | cons r rt ih =>
    intro init
    rw [List.foldl_cons, ih, mem_insertSorted]
    simp only [List.mem_cons]
    constructor
    · rintro ((h | h) | h)
      · exact Or.inr ⟨r, Or.inl rfl, h.symm⟩
      · exact Or.inl h
      · obtain ⟨q, hq, hqx⟩ := h
        exact Or.inr ⟨q, Or.inr hq, hqx⟩
    · rintro (h | ⟨q, hq | hq, hqx⟩)
      · exact Or.inl (Or.inr h)
      · exact Or.inl (Or.inl (hq ▸ hqx.symm))
      · exact Or.inr ⟨q, hq, hqx⟩

/-- The register loop's `BTreeSet` fold is strictly sorted. -/
theorem sorted_foldl_insertSorted (rs : List FinalRegisterInfo) :
    ∀ init : List String, init.Sorted (· < ·) →
      (rs.foldl (fun acc r => insertSorted r.properties.access_type_name acc)
        init).Sorted (· < ·) := by
  induction rs with
  | nil => intro init h; simpa using h
  | cons r rt ih =>
    intro init h
    rw [List.foldl_cons]
    exact ih _ (sorted_insertSorted _ _ h)

/-- C7: the emitted import line of a shape artifact lists exactly the set
of distinct access-wrapper type names used by the shape's registers: the
line is in the artifact, the imported list has no duplicates, and its
underlying set equals the set of the registers' access-type names — every
used wrapper appears and no unused one is imported. -/
theorem svd2ral_C7_imports (p : ModelPeripheral) (cfg : GeneratorConfig)
    (out : List String) (h : write_peripheral p cfg = some out) :
    importLine p ∈ out ∧
    (importedAccessTypes p).Nodup ∧
    (importedAccessTypes p).toFinset =
      (p.registers.map fun r => r.properties.access_type_name).toFinset := by
  obtain ⟨regMods, _, hout⟩ := Option.map_eq_some'.mp h
  subst hout
  refine ⟨by simp, ?_, ?_⟩
  · have hs : (accessTypesSet p).Sorted (· < ·) :=
      sorted_foldl_insertSorted _ _ (by simp)
    exact ((List.mergeSort_perm _ _).nodup_iff).mpr hs.nodup
  · ext t
    simp only [List.mem_toFinset, importedAccessTypes, List.mem_mergeSort,
      accessTypesSet, mem_foldl_insertSorted, List.not_mem_nil, false_or,
      List.mem_map]

/-- Witness for C7: a shape with a read-write, a read-only and a second
read-write register imports exactly `RORegister` and `RWRegister`. -/
theorem svd2ral_C7_imports_witness :
    importLine
        { name := "P", module_name := "p", description := "P",
          registers := [egRegister,
            { name := "SR", description := none,
              properties := { access := .readOnly, bit_width := 32 },
              fields := [] },
            { name := "CR", description := none,
              properties := { access := .readWrite, bit_width := 32 },
              fields := [] }] }
      ∈ (write_peripheral
        { name := "P", module_name := "p", description := "P",
          registers := [egRegister,
            { name := "SR", description := none,
              properties := { access := .readOnly, bit_width := 32 },
              fields := [] },
            { name := "CR", description := none,
              properties := { access := .readWrite, bit_width := 32 },
              fields := [] }] } egConfig).getD [] ∧
    (importedAccessTypes
        { name := "P", module_name := "p", description := "P",
          registers := [egRegister,
            { name := "SR", description := none,
              properties := { access := .readOnly, bit_width := 32 },
              fields := [] },
            { name := "CR", description := none,
              properties := { access := .readWrite, bit_width := 32 },
              fields := [] }] }).Nodup ∧
    (importedAccessTypes
        { name := "P", module_name := "p", description := "P",
          registers := [egRegister,
            { name := "SR", description := none,
              properties := { access := .readOnly, bit_width := 32 },
              fields := [] },
            { name := "CR", description := none,
              properties := { access := .readWrite, bit_width := 32 },
              fields := [] }] }).toFinset =
      (List.map (fun r => r.properties.access_type_name)
        [egRegister,
            { name := "SR", description := none,
              properties := { access := .readOnly, bit_width := 32 },
              fields := [] },
            { name := "CR", description := none,
              properties := { access := .readWrite, bit_width := 32 },
              fields := [] }]).toFinset :=
  svd2ral_C7_imports
    { name := "P", module_name := "p", description := "P",
      registers := [egRegister,
        { name := "SR", description := none,
          properties := { access := .readOnly, bit_width := 32 },
          fields := [] },
        { name := "CR", description := none,
          properties := { access := .readWrite, bit_width := 32 },
          fields := [] }] } egConfig _ rfl

/-! ## C8: register order is preserved, reset table parallel to the block -/

/-- When an instance's reset values name the shape's registers in order,
its emitted reset lines are the member-for-member zip of the shape's
register names with the instance's values. -/
theorem resetLines_eq_zipWith (rv : List ResetValue) (names : List String)
    (h : rv.map ResetValue.register = names) :
    rv.map (fun v => "        " ++ v.register ++ ": " ++ hexLit v.value ++ ",") =
    List.zipWith (fun nm v => "        " ++ nm ++ ": " ++ hexLit v ++ ",")
      names (rv.map ResetValue.value) := by
  induction rv generalizing names with
  | nil => subst h; rfl
  | cons v vt ih =>
    subst h
    rw [List.map_cons, List.map_cons, List.map_cons, List.zipWith_cons_cons,
      ih _ rfl]

/-- C8: the emitted `RegisterBlock` members appear in exactly the order of
the shape's register list — the block section of the artifact is the
ordered concatenation of the per-register entries — and the instance's
emitted reset table lists its registers in that same order: it appears
contiguously in the instance artifact, has one line per register, and its
`k`-th line is built from the `k`-th register's name (the zip of names in
register order with the instance's values). -/
theorem svd2ral_C8_register_order (p : ModelPeripheral)
    (inst : ModelPeripheralInstance) (cfg : GeneratorConfig) (out : List String)
    (hout : write_peripheral p cfg = some out)
    (h : inst.reset_values.map ResetValue.register =
      p.registers.map FinalRegisterInfo.name) :
    (∃ pre post, out =
      pre ++ List.intercalate [""] (p.registers.map registerBlockEntry) ++ post) ∧
    (∃ pre post, write_peripheral_instance inst cfg =
      pre ++ instanceResetLines inst ++ post) ∧
    (instanceResetLines inst).length = p.registers.length ∧
    instanceResetLines inst =
      List.zipWith (fun nm v => "        " ++ nm ++ ": " ++ hexLit v ++ ",")
        (p.registers.map FinalRegisterInfo.name)
        (inst.reset_values.map ResetValue.value) := by
  obtain ⟨regMods, _, hw⟩ := Option.map_eq_some'.mp hout
  subst hw
  refine ⟨?_, ?_, ?_, ?_⟩
  · refine ⟨["#![allow(non_snake_case, non_upper_case_globals)]",
      "#![allow(non_camel_case_types)]"] ++
      build_doc_comment "//!" p.description ++ [""] ++
      [importLine p] ++
      ["use core::marker::PhantomData;", ""] ++
      (List.intercalate [""] regMods ++ [""]) ++
      ["pub struct RegisterBlock \x7b"],
      ["\x7d", ""] ++ resetValuesLines p ++ instanceStructLines cfg, ?_⟩
    simp [registerBlockLines, List.append_assoc]
  · cases hre : (instanceResetLines inst).isEmpty
    · refine ⟨["#![allow(non_snake_case, non_upper_case_globals)]",
        "#![allow(non_camel_case_types)]"] ++
        build_doc_comment "//!" inst.description ++ [""] ++
        ["pub use super::super::peripherals::" ++ inst.peripheral_module
          ++ "::Instance;",
         "pub use super::super::peripherals::" ++ inst.peripheral_module
          ++ "::\x7bRegisterBlock, ResetValues\x7d;"] ++
        (if (inst.reset_values.map (·.register)).isEmpty then []
         else ["pub use super::super::peripherals::" ++ inst.peripheral_module
          ++ "::\x7b" ++ String.intercalate ", " (inst.reset_values.map (·.register))
          ++ "\x7d;"]) ++
        [""] ++ accessModHeadLines inst,
        accessModTailLines inst cfg ++ rawPointerDocLines inst.name ++
        ["pub const " ++ inst.name ++ ": *const RegisterBlock = "
          ++ hexLit inst.base_address ++ " as *const _;"], ?_⟩
      simp [write_peripheral_instance, accessModLines, hre, List.append_assoc]
    · refine ⟨write_peripheral_instance inst cfg, [], ?_⟩
      rw [List.isEmpty_iff.mp hre]
      simp
  · rw [instanceResetLines, List.length_map,
      ← List.length_map inst.reset_values ResetValue.register, h, List.length_map]
  · exact resetLines_eq_zipWith inst.reset_values _ h

/-- Witness for C8: the GPIOA example — the single `ODR` block entry and
the single reset line `ODR: 0x0,` are parallel. -/
theorem svd2ral_C8_register_order_witness :
    (∃ pre post, (write_peripheral egShape egConfig).getD [] =
      pre ++ List.intercalate [""] (egShape.registers.map registerBlockEntry) ++ post) ∧
    (∃ pre post, write_peripheral_instance egInstance egConfig =
      pre ++ instanceResetLines egInstance ++ post) ∧
    (instanceResetLines egInstance).length = egShape.registers.length ∧
    instanceResetLines egInstance =
      List.zipWith (fun nm v => "        " ++ nm ++ ": " ++ hexLit v ++ ",")
        (egShape.registers.map FinalRegisterInfo.name)
        (egInstance.reset_values.map ResetValue.value) :=
  svd2ral_C8_register_order egShape egInstance egConfig _ rfl rfl

/-! ## C6: the ignore list suppresses artifacts, declarations, metadata -/

/-- Cancelling a common prefix and suffix of appended strings. -/
theorem string_affix_cancel {pre suf a b : String}
    (h : pre ++ a ++ suf = pre ++ b ++ suf) : a = b := by
  have hd := congrArg String.data h
  simp only [String.data_append] at hd
  exact String.ext (List.append_cancel_left (List.append_cancel_right hd))

/-- Cancelling a common suffix of appended strings. -/
theorem string_suffix_cancel {suf a b : String} (h : a ++ suf = b ++ suf) :
    a = b := by
  have hd := congrArg String.data h
  simp only [String.data_append] at hd
  exact String.ext (List.append_cancel_right hd)

/-- A `pub use self::instances::…;` line differs from any line whose fifth
character is not `u`, whatever the module name. -/
theorem pub_use_ne {hl : String} (m : String)
    (h4 : hl.data[4]? ≠ some (Char.ofNat 117)) :
    ("pub use self::instances::" ++ m ++ ";") ≠ hl := by
  have hlen : 4 < (("pub use self::instances::" ++ m)).data.length := by
    rw [String.data_append, List.length_append]
    have h25 : ("pub use self::instances::" : String).data.length = 25 := by decide
    omega
  have ha : (("pub use self::instances::" ++ m) ++ ";").data[4]?
      = some (Char.ofNat 117) := by
    rw [data_get_append_left hlen, data_get_append_left (by decide)]
    decide
  exact string_ne_of_get_ne 4 (by rw [ha]; exact fun hh => h4 hh.symm)

/-- Nothing mapped from a peripheral that every matching source peripheral
is ignored for survives into the kept-peripheral image. -/
theorem not_mem_kept_peripherals_map (d : Device) (cfg : GeneratorConfig)
    (g : ModelPeripheral → String) (x : String)
    (hx : ∀ q ∈ d.peripherals, g q = x → cfg.ignore.contains q.name = true) :
    x ∉ (keptPeripherals d cfg).map g := by
  intro hmem
  obtain ⟨q, hqf, hgq⟩ := List.mem_map.mp hmem
  obtain ⟨hqd, hqk⟩ := List.mem_filter.mp hqf
  rw [hx q hqd hgq] at hqk
  exact absurd hqk (by decide)

/-- The instance counterpart of `not_mem_kept_peripherals_map`. -/
theorem not_mem_kept_instances_map (d : Device) (cfg : GeneratorConfig)
    (g : ModelPeripheralInstance → String) (x : String)
    (hx : ∀ i ∈ d.instances, g i = x → cfg.ignore.contains i.name = true) :
    x ∉ (keptInstances d cfg).map g := by
  intro hmem
  obtain ⟨i, hif, hgi⟩ := List.mem_map.mp hmem
  obtain ⟨hid, hik⟩ := List.mem_filter.mp hif
  rw [hx i hid hgi] at hik
  exact absurd hik (by decide)

/-- C6: a peripheral shape `p` and an instance `j` whose names are in
`config.ignore` get no artifact file, no `pub mod` (or `pub use`) module
declaration, and neither their module names nor their original names occur
in any of the three metadata lists.  The hypotheses `hp1`–`hj2` express
the identifier discipline of the model builder (distinct entries do not
reuse each other's sanitized or original names unless they are ignored
too), without which a different, non-ignored entry of the same name would
legitimately appear. -/
theorem svd2ral_C6_ignore (d : Device) (cfg : GeneratorConfig)
    (p : ModelPeripheral) (j : ModelPeripheralInstance)
    (hip : cfg.ignore.contains p.name = true)
    (hij : cfg.ignore.contains j.name = true)
    (hp1 : ∀ q ∈ d.peripherals,
      q.module_name = p.module_name ∨ q.module_name = p.name →
      cfg.ignore.contains q.name = true)
    (hp2 : ∀ i ∈ d.instances,
      i.module_name = p.module_name ∨ i.module_name = p.name ∨
        i.name = p.module_name →
      cfg.ignore.contains i.name = true)
    (hj1 : ∀ i ∈ d.instances,
      i.module_name = j.module_name ∨ i.module_name = j.name ∨
        i.name = j.module_name →
      cfg.ignore.contains i.name = true)
    (hj2 : ∀ q ∈ d.peripherals,
      q.module_name = j.module_name ∨ q.module_name = j.name →
      cfg.ignore.contains q.name = true) :
    ((p.module_name ++ ".rs") ∉ (generate d cfg).peripheral_files.map Prod.fst ∧
     ("pub mod " ++ p.module_name ++ ";") ∉ (generate d cfg).peripherals_mod_rs ∧
     p.module_name ∉ (generate d cfg).peripheral_modules ∧
     p.module_name ∉ (generate d cfg).instance_modules ∧
     p.module_name ∉ (generate d cfg).instance_names ∧
     p.name ∉ (generate d cfg).peripheral_modules ∧
     p.name ∉ (generate d cfg).instance_modules ∧
     p.name ∉ (generate d cfg).instance_names) ∧
    ((j.module_name ++ ".rs") ∉ (generate d cfg).instance_files.map Prod.fst ∧
     ("pub mod " ++ j.module_name ++ ";") ∉ (generate d cfg).instances_mod_rs ∧
     ("pub use self::instances::" ++ j.module_name ++ ";") ∉ (generate d cfg).mod_rs ∧
     j.module_name ∉ (generate d cfg).peripheral_modules ∧
     j.module_name ∉ (generate d cfg).instance_modules ∧
     j.module_name ∉ (generate d cfg).instance_names ∧
     j.name ∉ (generate d cfg).peripheral_modules ∧
     j.name ∉ (generate d cfg).instance_modules ∧
     j.name ∉ (generate d cfg).instance_names) := by
  constructor
  · refine ⟨?_, ?_, ?_, ?_, ?_, ?_, ?_, ?_⟩
    · rw [generate, List.map_map]
      exact not_mem_kept_peripherals_map d cfg _ _
        (fun q hq hgq => hp1 q hq (Or.inl (string_suffix_cancel hgq)))
    · rw [generate]
      exact not_mem_kept_peripherals_map d cfg _ _
        (fun q hq hgq => hp1 q hq (Or.inl (string_affix_cancel hgq)))
    · rw [generate]
      exact not_mem_kept_peripherals_map d cfg _ _
        (fun q hq hgq => hp1 q hq (Or.inl hgq))
    · rw [generate]
      exact not_mem_kept_instances_map d cfg _ _
        (fun i hi hgi => hp2 i hi (Or.inl hgi))
    · rw [generate]
      exact not_mem_kept_instances_map d cfg _ _
        (fun i hi hgi => hp2 i hi (Or.inr (Or.inr hgi)))
    · rw [generate]
      exact not_mem_kept_peripherals_map d cfg _ _
        (fun q hq hgq => hp1 q hq (Or.inr hgq))
    · rw [generate]
      exact not_mem_kept_instances_map d cfg _ _
        (fun i hi hgi => hp2 i hi (Or.inr (Or.inl hgi)))
    · rw [generate]
      exact not_mem_kept_instances_map d cfg _ _
        (fun i hi hgi => by rw [hgi]; exact hip)
  · refine ⟨?_, ?_, ?_, ?_, ?_, ?_, ?_, ?_, ?_⟩
    · rw [generate, List.map_map]
      exact not_mem_kept_instances_map d cfg _ _
        (fun i hi hgi => hj1 i hi (Or.inl (string_suffix_cancel hgi)))
    · rw [generate]
      exact not_mem_kept_instances_map d cfg _ _
        (fun i hi hgi => hj1 i hi (Or.inl (string_affix_cancel hgi)))
    · rw [generate]
      intro hmem
      rcases List.mem_append.mp hmem with hmem | hmem
      · simp only [modRsHeader, List.mem_cons, List.not_mem_nil, or_false] at hmem
        rcases hmem with h | h | h | h | h | h | h | h | h | h <;>
          exact absurd h (pub_use_ne _ (by decide))
      · exact not_mem_kept_instances_map d cfg _ _
          (fun i hi hgi => hj1 i hi (Or.inl (string_affix_cancel hgi))) hmem
    · rw [generate]
      exact not_mem_kept_peripherals_map d cfg _ _
        (fun q hq hgq => hj2 q hq (Or.inl hgq))
    · rw [generate]
      exact not_mem_kept_instances_map d cfg _ _
        (fun i hi hgi => hj1 i hi (Or.inl hgi))
    · rw [generate]
      exact not_mem_kept_instances_map d cfg _ _
        (fun i hi hgi => hj1 i hi (Or.inr (Or.inr hgi)))
    · rw [generate]
      exact not_mem_kept_peripherals_map d cfg _ _
        (fun q hq hgq => hj2 q hq (Or.inr hgq))
    · rw [generate]
      exact not_mem_kept_instances_map d cfg _ _
        (fun i hi hgi => hj1 i hi (Or.inr (Or.inl hgi)))
    · rw [generate]
      exact not_mem_kept_instances_map d cfg _ _
        (fun i hi hgi => by rw [hgi]; exact hij)

/-- Witness for C6: with TIM1 on the ignore list, neither the TIM1 shape
nor the TIM1 instance of the example device leaves any trace: no file
name, no module declaration, and no entry in the three metadata lists. -/
theorem svd2ral_C6_ignore_witness :
    (("tim1" ++ ".rs") ∉ (generate egDevice egConfigIgnore).peripheral_files.map Prod.fst ∧
     ("pub mod " ++ "tim1" ++ ";") ∉ (generate egDevice egConfigIgnore).peripherals_mod_rs ∧
     "tim1" ∉ (generate egDevice egConfigIgnore).peripheral_modules ∧
     "tim1" ∉ (generate egDevice egConfigIgnore).instance_modules ∧
     "tim1" ∉ (generate egDevice egConfigIgnore).instance_names ∧
     "TIM1" ∉ (generate egDevice egConfigIgnore).peripheral_modules ∧
     "TIM1" ∉ (generate egDevice egConfigIgnore).instance_modules ∧
     "TIM1" ∉ (generate egDevice egConfigIgnore).instance_names) ∧
    (("tim1" ++ ".rs") ∉ (generate egDevice egConfigIgnore).instance_files.map Prod.fst ∧
     ("pub mod " ++ "tim1" ++ ";") ∉ (generate egDevice egConfigIgnore).instances_mod_rs ∧
     ("pub use self::instances::" ++ "tim1" ++ ";") ∉ (generate egDevice egConfigIgnore).mod_rs ∧
     "tim1" ∉ (generate egDevice egConfigIgnore).peripheral_modules ∧
     "tim1" ∉ (generate egDevice egConfigIgnore).instance_modules ∧
     "tim1" ∉ (generate egDevice egConfigIgnore).instance_names ∧
     "TIM1" ∉ (generate egDevice egConfigIgnore).peripheral_modules ∧
     "TIM1" ∉ (generate egDevice egConfigIgnore).instance_modules ∧
     "TIM1" ∉ (generate egDevice egConfigIgnore).instance_names) :=
  svd2ral_C6_ignore egDevice egConfigIgnore egShapeTim egInstanceTim
    (by decide) (by decide) (by decide) (by decide) (by decide) (by decide)

end Svd2Ral
